import Mathlib

/-
Shallow embedding of src/traffic_light_simulator.py (core simulation logic:
TrafficLight, Car, Spawner, Simulation.update).  Rendering, event handling and
the pygame clock are outside the core and are not modelled.  Machine reals
(pygame floats) are modelled as rationals; millisecond timestamps (Python ints)
as integers.  The random draw of `random.randint(*interval_range)` is passed in
as an oracle argument.
-/

namespace TrafficSim

/-- LightState enumeration (VERDE / AMARILLO / ROJO). -/
inductive LightState where
  | VERDE
  | AMARILLO
  | ROJO
deriving DecidableEq

/-- Cardinal directions. -/
inductive Direction where
  | NORTE
  | SUR
  | ESTE
  | OESTE
deriving DecidableEq

def ANCHO_PANTALLA : ℚ := 900
def ALTO_PANTALLA : ℚ := 600

def TIEMPO_VERDE : ℤ := 6000
def TIEMPO_AMARILLO : ℤ := 2000

/-- TrafficLight dataclass: position, orientation, last_change_ms, state. -/
structure TrafficLight where
  position : ℚ × ℚ
  orientation : Direction
  last_change_ms : ℤ := 0
  state : LightState := LightState.VERDE
deriving DecidableEq

/-- TrafficLight.update: timer-driven phase machine (if / elif / elif chain). -/
def TrafficLight.update (l : TrafficLight) (current_ms : ℤ) : TrafficLight :=
  let tiempo_en_estado := current_ms - l.last_change_ms
  if l.state = LightState.VERDE ∧ tiempo_en_estado ≥ TIEMPO_VERDE then
    { l with state := LightState.AMARILLO, last_change_ms := current_ms }
  else if l.state = LightState.AMARILLO ∧ tiempo_en_estado ≥ TIEMPO_AMARILLO then
    { l with state := LightState.ROJO, last_change_ms := current_ms }
  else if l.state = LightState.ROJO ∧ tiempo_en_estado ≥ TIEMPO_VERDE + TIEMPO_AMARILLO then
    { l with state := LightState.VERDE, last_change_ms := current_ms }
  else l

/-- TrafficLight.is_green_for: same axis as the light's orientation and state VERDE. -/
def TrafficLight.is_green_for (l : TrafficLight) (direction : Direction) : Bool :=
  let mismo_eje : Bool :=
    if direction = Direction.NORTE ∨ direction = Direction.SUR then
      decide (l.orientation = Direction.NORTE ∨ l.orientation = Direction.SUR)
    else
      decide (l.orientation = Direction.ESTE ∨ l.orientation = Direction.OESTE)
  mismo_eje && decide (l.state = LightState.VERDE)

/-- Car dataclass: direction, position (x, y for pygame.Vector2), speed,
length, width, with the source's default values. -/
structure Car where
  direction : Direction
  x : ℚ
  y : ℚ
  speed : ℚ := 120
  length : ℚ := 25
  width : ℚ := 15
deriving DecidableEq

def stop_line_y : ℚ := ALTO_PANTALLA / 2 - 40
def stop_line_x : ℚ := ANCHO_PANTALLA / 2 - 40

/-- Intended displacement (dx, dy) from direction and speed * dt. -/
def Car.intendedDisp (c : Car) (dt : ℚ) : ℚ × ℚ :=
  match c.direction with
  | Direction.NORTE => (0, -c.speed * dt)
  | Direction.SUR => (0, c.speed * dt)
  | Direction.ESTE => (c.speed * dt, 0)
  | Direction.OESTE => (-c.speed * dt, 0)

/-- One iteration of the braking loop body of Car.update for one light `luz`:
if the light is not green for the car's direction, the nested position checks
may zero the displacement component along the direction of travel. -/
def Car.brakeStep (c : Car) (luz : TrafficLight) (d : ℚ × ℚ) : ℚ × ℚ :=
  if !(luz.is_green_for c.direction) then
    if c.direction = Direction.NORTE ∧ c.y - c.length / 2 ≤ stop_line_y then
      if c.y - c.length / 2 > stop_line_y - 5 then (d.1, 0) else d
    else if c.direction = Direction.SUR ∧ c.y + c.length / 2 ≥ stop_line_y + 80 then
      if c.y + c.length / 2 < stop_line_y + 85 then (d.1, 0) else d
    else if c.direction = Direction.OESTE ∧ c.x - c.length / 2 ≤ stop_line_x then
      if c.x - c.length / 2 > stop_line_x - 5 then (0, d.2) else d
    else if c.direction = Direction.ESTE ∧ c.x + c.length / 2 ≥ stop_line_x + 80 then
      if c.x + c.length / 2 < stop_line_x + 85 then (0, d.2) else d
    else d
  else d

/-- Car.update: compute intended displacement, run the braking loop over the
list of lights, add the resulting displacement to the position. -/
def Car.update (c : Car) (dt : ℚ) (luces : List TrafficLight) : Car :=
  let d0 := c.intendedDisp dt
  let d := luces.foldl (fun d luz => c.brakeStep luz d) d0
  { c with x := c.x + d.1, y := c.y + d.2 }

/-- Car.is_off_screen: position beyond the screen by more than 50 on any side. -/
def Car.is_off_screen (c : Car) : Bool :=
  decide (c.x < -50 ∨ c.x > ANCHO_PANTALLA + 50 ∨ c.y < -50 ∨ c.y > ALTO_PANTALLA + 50)

/-- Spawner: direction, fixed spawn position, inclusive interval range (ms),
next spawn time. -/
structure Spawner where
  direction : Direction
  spawn_pos : ℚ × ℚ
  interval_range : ℤ × ℤ := (1500, 4000)
  next_spawn_ms : ℤ := 0
deriving DecidableEq

/-- The Car appended by Spawner.update: spawn position, spawner's direction,
defaults for speed and footprint. -/
def Spawner.newCar (s : Spawner) : Car :=
  { direction := s.direction, x := s.spawn_pos.1, y := s.spawn_pos.2 }

/-- Spawner.update: when due, append one car and set the next spawn time to
now + draw, where `draw` stands for random.randint over interval_range. -/
def Spawner.update (s : Spawner) (current_ms : ℤ) (cars : List Car) (draw : ℤ) :
    Spawner × List Car :=
  if current_ms ≥ s.next_spawn_ms then
    ({ s with next_spawn_ms := current_ms + draw }, cars ++ [s.newCar])
  else (s, cars)

/-- Simulation state: the two lights, the active cars, the four spawners,
and the externally toggled flags. -/
structure Simulation where
  traffic_light_ns : TrafficLight
  traffic_light_ew : TrafficLight
  cars : List Car
  spawners : List Spawner
  running : Bool := true
  paused : Bool := false
deriving DecidableEq

/-- The spawner loop of Simulation.update: each spawner runs in order on the
shared car list, consuming one oracle draw each. -/
def spawnAll : List Spawner → List ℤ → ℤ → List Car → List Spawner × List Car
  | [], _, _, cars => ([], cars)
  | s :: rest, draws, now, cars =>
    let r := s.update now cars (draws.headD 0)
    let r2 := spawnAll rest draws.tail now r.2
    (r.1 :: r2.1, r2.2)

/-- The car loop of Simulation.update: update every car once, then remove the
off-screen ones.  The source iterates over a copy of the list, mutates each
car in place and removes it from the live list when off screen, which
processes every car exactly once and keeps exactly the in-bounds updates. -/
def updateAndCull (dt : ℚ) (luces : List TrafficLight) (cars : List Car) : List Car :=
  (cars.map (fun c => c.update dt luces)).filter (fun c => !(c.is_off_screen))

/-- Simulation.update: advance the NS light; advance the EW light only when NS
is ROJO, else force EW to ROJO with its clock reset to now; run spawners;
update and cull cars. -/
def Simulation.update (sim : Simulation) (dt : ℚ) (current_ms : ℤ) (draws : List ℤ) :
    Simulation :=
  let ns := sim.traffic_light_ns.update current_ms
  let ew :=
    if ns.state = LightState.ROJO then sim.traffic_light_ew.update current_ms
    else { sim.traffic_light_ew with state := LightState.ROJO, last_change_ms := current_ms }
  let sc := spawnAll sim.spawners draws current_ms sim.cars
  { sim with
    traffic_light_ns := ns
    traffic_light_ew := ew
    spawners := sc.1
    cars := updateAndCull dt [ns, ew] sc.2 }

/-- Initial state built by Simulation.__init__ (core fields). -/
def Simulation.init : Simulation :=
  { traffic_light_ns :=
      { position := (ANCHO_PANTALLA / 2 - 60, ALTO_PANTALLA / 2 - 60)
        orientation := Direction.NORTE }
    traffic_light_ew :=
      { position := (ANCHO_PANTALLA / 2 + 20, ALTO_PANTALLA / 2 - 60)
        orientation := Direction.ESTE
        state := LightState.ROJO
        last_change_ms := 0 }
    cars := []
    spawners :=
      [ { direction := Direction.SUR, spawn_pos := (ANCHO_PANTALLA / 2 - 20, -30) }
      , { direction := Direction.NORTE, spawn_pos := (ANCHO_PANTALLA / 2 + 20, ALTO_PANTALLA + 30) }
      , { direction := Direction.ESTE, spawn_pos := (-30, ALTO_PANTALLA / 2 + 20) }
      , { direction := Direction.OESTE, spawn_pos := (ANCHO_PANTALLA + 30, ALTO_PANTALLA / 2 - 20) } ] }

/-- Successor of a phase in the cyclic order VERDE, AMARILLO, ROJO, VERDE. -/
def nextState : LightState → LightState
  | LightState.VERDE => LightState.AMARILLO
  | LightState.AMARILLO => LightState.ROJO
  | LightState.ROJO => LightState.VERDE

/-- C1: mutual exclusion of the two lights.  After every Simulation.update,
at least one of the two lights is ROJO, so it is never the case that the
NorthSouth and EastWest lights are both in a non-Red phase. -/
theorem mutual_exclusion_after_update (sim : Simulation) (dt : ℚ) (current_ms : ℤ)
    (draws : List ℤ) :
    (Simulation.update sim dt current_ms draws).traffic_light_ns.state = LightState.ROJO ∨
    (Simulation.update sim dt current_ms draws).traffic_light_ew.state = LightState.ROJO := by
  by_cases h : (sim.traffic_light_ns.update current_ms).state = LightState.ROJO
  · left
    simp [Simulation.update, h]
  · right
    simp [Simulation.update, h]

/-- C5: cycle determinism of a single light.  A light starting VERDE with
last_change_ms = 0, advanced at the exact threshold times, is AMARILLO after
6000 ms, ROJO after 8000 ms total, and VERDE again after 16000 ms total. -/
theorem cycle_determinism :
    (TrafficLight.update
      { position := (0, 0), orientation := Direction.NORTE,
        last_change_ms := 0, state := LightState.VERDE } 6000).state = LightState.AMARILLO ∧
    (TrafficLight.update (TrafficLight.update
      { position := (0, 0), orientation := Direction.NORTE,
        last_change_ms := 0, state := LightState.VERDE } 6000) 8000).state = LightState.ROJO ∧
    (TrafficLight.update (TrafficLight.update (TrafficLight.update
      { position := (0, 0), orientation := Direction.NORTE,
        last_change_ms := 0, state := LightState.VERDE } 6000) 8000) 16000).state
      = LightState.VERDE := by
  decide

/-- C6: at most one phase transition per update call.  For every light and
every current time, one call to TrafficLight.update either leaves the light
unchanged or advances the phase exactly one step along the cycle and sets
last_change_ms to the current time. -/
theorem at_most_one_transition (l : TrafficLight) (now : ℤ) :
    l.update now = l ∨
      ((l.update now).state = nextState l.state ∧ (l.update now).last_change_ms = now) := by
  cases hst : l.state <;>
    simp only [TrafficLight.update, hst] <;>
    split_ifs <;>
    simp_all [nextState]

/-- A NorthSouth light that is VERDE (clock at 0). -/
def luzNSVerde : TrafficLight :=
  { position := (390, 240), orientation := Direction.NORTE,
    last_change_ms := 0, state := LightState.VERDE }

/-- A NorthSouth light that is ROJO (clock at 0). -/
def luzNSRoja : TrafficLight :=
  { position := (390, 240), orientation := Direction.NORTE,
    last_change_ms := 0, state := LightState.ROJO }

/-- An EastWest light that is ROJO (clock at 0). -/
def luzEWRoja : TrafficLight :=
  { position := (470, 240), orientation := Direction.ESTE,
    last_change_ms := 0, state := LightState.ROJO }

/-- A northbound car whose leading edge y = 257.5 lies in the active halt band
(255, 260], deep inside the intersection band y between 260 and 340. -/
def cocheNorteZona : Car := { direction := Direction.NORTE, x := 470, y := 270 }

/-- A northbound car whose leading edge y = 342.5 lies strictly inside the
5-unit band just before its approach boundary y = 340 of the intersection. -/
def cocheNorteEntrada : Car := { direction := Direction.NORTE, x := 470, y := 355 }

/-- C2: evaluation at the failing input.  A northbound car at (470, 270)
(leading edge y = 257.5, inside the active 5-unit halt band) whose governing
NorthSouth light is VERDE — is_green_for NORTE is true, so it has right of
way — is nevertheless held in place by Car.update: the cross-axis EastWest
light is never green for NORTE, so the braking loop zeroes dy even on green,
and the position is unchanged instead of advancing by speed * dt = 12. -/
theorem green_light_car_still_halted :
    luzNSVerde.is_green_for Direction.NORTE = true ∧
    cocheNorteZona.update (1 / 10) [luzNSVerde, luzEWRoja] = cocheNorteZona := by
  refine ⟨by decide, ?_⟩
  simp only [Car.update, Car.intendedDisp, Car.brakeStep, TrafficLight.is_green_for,
    luzNSVerde, luzEWRoja, cocheNorteZona, stop_line_y, stop_line_x,
    ANCHO_PANTALLA, ALTO_PANTALLA, List.foldl]
  norm_num
  simp

/-- C3: evaluation at the failing input.  A northbound car at (470, 270) is
well inside the intersection (it entered at leading edge y = 340 and its
leading edge is now at y = 257.5, about to leave), yet Car.update halts it:
its position is unchanged, so a committed vehicle is frozen mid-intersection
instead of completing its crossing. -/
theorem committed_car_frozen_mid_intersection :
    cocheNorteZona.y - cocheNorteZona.length / 2 ≤ 340 ∧
    cocheNorteZona.update (1 / 10) [luzNSRoja, luzEWRoja] = cocheNorteZona := by
  refine ⟨by norm_num [cocheNorteZona], ?_⟩
  simp only [Car.update, Car.intendedDisp, Car.brakeStep, TrafficLight.is_green_for,
    luzNSRoja, luzEWRoja, cocheNorteZona, stop_line_y, stop_line_x,
    ANCHO_PANTALLA, ALTO_PANTALLA, List.foldl]
  norm_num
  simp

/-- C4: evaluation at the failing input.  A northbound car at (470, 355) has
its leading edge at y = 342.5, strictly inside the 5-unit band just before its
approach boundary of the intersection (the road band is y between 260 and 340,
entered from below), and its NorthSouth light is ROJO — yet Car.update moves
it the full speed * dt = 12 units (y becomes 343) instead of halting it: the
code's halt band sits at the far exit line (leading edge in (255, 260]), not
on the approach side. -/
theorem approach_side_stop_zone_not_halted :
    luzNSRoja.is_green_for Direction.NORTE = false ∧
    cocheNorteEntrada.update (1 / 10) [luzNSRoja, luzEWRoja]
      = { cocheNorteEntrada with y := 343 } := by
  refine ⟨by decide, ?_⟩
  simp only [Car.update, Car.intendedDisp, Car.brakeStep, TrafficLight.is_green_for,
    luzNSRoja, luzEWRoja, cocheNorteEntrada, stop_line_y, stop_line_x,
    ANCHO_PANTALLA, ALTO_PANTALLA, List.foldl]
  norm_num

/-- Simulation state one frame before the leader turns Red: the leader
(NorthSouth) light has been AMARILLO since 6000 and the follower (EastWest)
is ROJO with its clock last forced at 7984 (the previous frame). -/
def simLiderAmarillo : Simulation :=
  { traffic_light_ns :=
      { position := (390, 240), orientation := Direction.NORTE,
        last_change_ms := 6000, state := LightState.AMARILLO }
    traffic_light_ew :=
      { position := (470, 240), orientation := Direction.ESTE,
        last_change_ms := 7984, state := LightState.ROJO }
    cars := []
    spawners := [] }

/-- C7: evaluation at the failing input.  Stepping simLiderAmarillo at 8000
makes the leader transition to ROJO at T = 8000, but the follower's clock is
NOT reset to T (it stays 7984), and stepping again at T + 6000 = 14000 — with
the leader still ROJO — leaves the follower ROJO rather than AMARILLO: the
follower does not run a Green cycle from zero starting at the instant T at
which the leader turned Red. -/
theorem follower_not_reset_at_leader_red :
    (simLiderAmarillo.update (1 / 60) 8000 []).traffic_light_ns.state = LightState.ROJO ∧
    (simLiderAmarillo.update (1 / 60) 8000 []).traffic_light_ns.last_change_ms = 8000 ∧
    (simLiderAmarillo.update (1 / 60) 8000 []).traffic_light_ew.state = LightState.ROJO ∧
    (simLiderAmarillo.update (1 / 60) 8000 []).traffic_light_ew.last_change_ms = 7984 ∧
    ((simLiderAmarillo.update (1 / 60) 8000 []).update (1 / 60) 14000
        []).traffic_light_ns.state = LightState.ROJO ∧
    ((simLiderAmarillo.update (1 / 60) 8000 []).update (1 / 60) 14000
        []).traffic_light_ew.state = LightState.ROJO := by
  refine ⟨?_, ?_, ?_, ?_, ?_, ?_⟩ <;>
    simp [Simulation.update, TrafficLight.update, simLiderAmarillo,
      TIEMPO_VERDE, TIEMPO_AMARILLO, spawnAll, updateAndCull]

/-- C8: spawner cadence.  For any spawner, time, car list and oracle draw in
the inclusive range 1500 to 4000: when the time has reached next_spawn_ms,
exactly one car (at spawn_pos, heading in the spawner's direction, with the
default speed and footprint) is appended and next_spawn_ms becomes now + draw,
which lies in the range now + 1500 to now + 4000; when the time has not been
reached, nothing changes; and in every case at most one car is created. -/
theorem spawner_cadence (s : Spawner) (now : ℤ) (cars : List Car) (draw : ℤ)
    (h1 : 1500 ≤ draw) (h2 : draw ≤ 4000) :
    (now ≥ s.next_spawn_ms →
      (s.update now cars draw).2 = cars ++ [s.newCar] ∧
      (s.update now cars draw).1.next_spawn_ms = now + draw ∧
      now + 1500 ≤ (s.update now cars draw).1.next_spawn_ms ∧
      (s.update now cars draw).1.next_spawn_ms ≤ now + 4000) ∧
    (¬ now ≥ s.next_spawn_ms → s.update now cars draw = (s, cars)) ∧
    (s.update now cars draw).2.length ≤ cars.length + 1 := by
  by_cases h : now ≥ s.next_spawn_ms
  · refine ⟨fun _ => ⟨?_, ?_, ?_, ?_⟩, fun hn => absurd h hn, ?_⟩ <;>
      simp [Spawner.update, h] <;> omega
  · exact ⟨fun hy => absurd hy h, fun _ => by simp [Spawner.update, h],
      by simp [Spawner.update, h]⟩

/-- C8 witness: the spawner cadence theorem applied to the initial SUR
spawner at time 0 with draw 2000. -/
theorem spawner_cadence_witness :
    ((0 : ℤ) ≥ (Spawner.mk Direction.SUR (430, -30) (1500, 4000) 0).next_spawn_ms →
      ((Spawner.mk Direction.SUR (430, -30) (1500, 4000) 0).update 0 [] 2000).2
          = [] ++ [(Spawner.mk Direction.SUR (430, -30) (1500, 4000) 0).newCar] ∧
      ((Spawner.mk Direction.SUR (430, -30) (1500, 4000) 0).update 0 [] 2000).1.next_spawn_ms
          = 0 + 2000 ∧
      (0 : ℤ) + 1500 ≤
        ((Spawner.mk Direction.SUR (430, -30) (1500, 4000) 0).update 0 [] 2000).1.next_spawn_ms ∧
      ((Spawner.mk Direction.SUR (430, -30) (1500, 4000) 0).update 0 [] 2000).1.next_spawn_ms
          ≤ 0 + 4000) ∧
    (¬ (0 : ℤ) ≥ (Spawner.mk Direction.SUR (430, -30) (1500, 4000) 0).next_spawn_ms →
      (Spawner.mk Direction.SUR (430, -30) (1500, 4000) 0).update 0 [] 2000
        = (Spawner.mk Direction.SUR (430, -30) (1500, 4000) 0, [])) ∧
    ((Spawner.mk Direction.SUR (430, -30) (1500, 4000) 0).update 0 [] 2000).2.length
      ≤ ([] : List Car).length + 1 :=
  spawner_cadence (Spawner.mk Direction.SUR (430, -30) (1500, 4000) 0) 0 [] 2000
    (by decide) (by decide)

/-- Transcription of the spec's wording for culling, to be compared with the
source's is_off_screen: the position lies more than 50 units outside the
playable area (the screen rectangle from (0, 0) to (ANCHO, ALTO)) on some
side. -/
def outOfBoundsSpec (c : Car) : Prop :=
  0 - c.x > 50 ∨ c.x - ANCHO_PANTALLA > 50 ∨ 0 - c.y > 50 ∨ c.y - ALTO_PANTALLA > 50

/-- C9: culling.  First, is_off_screen is true exactly when the position lies
more than 50 units outside the playable area on some side.  Second, after any
Simulation.update no active car is off screen.  Third, the update-and-remove
pass keeps every updated car that is in bounds (no car is skipped). -/
theorem culling_correct :
    (∀ c : Car, c.is_off_screen = true ↔ outOfBoundsSpec c) ∧
    (∀ (sim : Simulation) (dt : ℚ) (now : ℤ) (draws : List ℤ) (c : Car),
      c ∈ (sim.update dt now draws).cars → c.is_off_screen = false) ∧
    (∀ (dt : ℚ) (luces : List TrafficLight) (cars : List Car) (c : Car),
      c ∈ cars → (c.update dt luces).is_off_screen = false →
        c.update dt luces ∈ updateAndCull dt luces cars) := by
  refine ⟨?_, ?_, ?_⟩
  · intro c
    simp only [Car.is_off_screen, outOfBoundsSpec, decide_eq_true_eq]
    constructor
    · rintro (h | h | h | h)
      · exact Or.inl (by linarith)
      · exact Or.inr (Or.inl (by linarith))
      · exact Or.inr (Or.inr (Or.inl (by linarith)))
      · exact Or.inr (Or.inr (Or.inr (by linarith)))
    · rintro (h | h | h | h)
      · exact Or.inl (by linarith)
      · exact Or.inr (Or.inl (by linarith))
      · exact Or.inr (Or.inr (Or.inl (by linarith)))
      · exact Or.inr (Or.inr (Or.inr (by linarith)))
  · intro sim dt now draws c hc
    simp only [Simulation.update, updateAndCull, List.mem_filter] at hc
    simpa using hc.2
  · intro dt luces cars c hc hoff
    simp only [updateAndCull, List.mem_filter, List.mem_map]
    exact ⟨⟨c, hc, rfl⟩, by simp [hoff]⟩

/-- C9 witness: the culling theorem applied at concrete inputs — a car at
(1000, 300) is off screen per the spec's wording, and an in-bounds car at
(470, 300) stepped with dt = 0 under no lights is kept by the pass. -/
theorem culling_correct_witness :
    (Car.is_off_screen { direction := Direction.ESTE, x := 1000, y := 300 } = true ↔
      outOfBoundsSpec { direction := Direction.ESTE, x := 1000, y := 300 }) ∧
    Car.update { direction := Direction.NORTE, x := 470, y := 300 } 0 [] ∈
      updateAndCull 0 [] [{ direction := Direction.NORTE, x := 470, y := 300 }] :=
  ⟨culling_correct.1 { direction := Direction.ESTE, x := 1000, y := 300 },
    culling_correct.2.2 0 [] [{ direction := Direction.NORTE, x := 470, y := 300 }]
      { direction := Direction.NORTE, x := 470, y := 300 }
      (by simp)
      (by simp only [Car.update, Car.intendedDisp, Car.brakeStep, Car.is_off_screen,
            List.foldl, ANCHO_PANTALLA, ALTO_PANTALLA]
          norm_num)⟩

/-- brakeStep either leaves the displacement unchanged, zeroes its second
component, or zeroes its first component. -/
theorem brakeStep_cases (c : Car) (luz : TrafficLight) (d : ℚ × ℚ) :
    c.brakeStep luz d = d ∨ c.brakeStep luz d = (d.1, 0) ∨
      c.brakeStep luz d = ((0 : ℚ), d.2) := by
  unfold Car.brakeStep
  split_ifs <;> simp

/-- The braking loop leaves each displacement component either unchanged or
zero. -/
theorem foldl_brake_cases (c : Car) (luces : List TrafficLight) (a b : ℚ) :
    ((luces.foldl (fun d luz => c.brakeStep luz d) (a, b)).1 = a ∨
      (luces.foldl (fun d luz => c.brakeStep luz d) (a, b)).1 = 0) ∧
    ((luces.foldl (fun d luz => c.brakeStep luz d) (a, b)).2 = b ∨
      (luces.foldl (fun d luz => c.brakeStep luz d) (a, b)).2 = 0) := by
  induction luces generalizing a b with
  | nil => simp
  | cons luz rest ih =>
    simp only [List.foldl_cons]
    rcases brakeStep_cases c luz (a, b) with h | h | h <;> rw [h]
    · exact ih a b
    · obtain ⟨h1, h2⟩ := ih a 0
      exact ⟨h1, Or.inr (by rcases h2 with h2 | h2 <;> simpa using h2)⟩
    · obtain ⟨h1, h2⟩ := ih 0 b
      exact ⟨Or.inr (by rcases h1 with h1 | h1 <;> simpa using h1), h2⟩

/-- Displacement of one step along the fixed forward sense of the car's
direction of travel (north decreases y, south increases y, east increases x,
west decreases x). -/
def forwardDisp (c c2 : Car) : ℚ :=
  match c.direction with
  | Direction.NORTE => c.y - c2.y
  | Direction.SUR => c2.y - c.y
  | Direction.ESTE => c2.x - c.x
  | Direction.OESTE => c.x - c2.x

/-- The coordinate orthogonal to the car's direction of travel. -/
def orthoCoord (c : Car) : ℚ :=
  match c.direction with
  | Direction.NORTE => c.x
  | Direction.SUR => c.x
  | Direction.ESTE => c.y
  | Direction.OESTE => c.y

/-- C10: implicit kinematics invariant.  Car.update never changes the
coordinate orthogonal to the direction of travel, the displacement along the
direction of travel is exactly 0 or exactly speed * dt in the fixed forward
sense, and direction, speed and footprint are unchanged. -/
theorem kinematics_frame (c : Car) (dt : ℚ) (luces : List TrafficLight) :
    orthoCoord (c.update dt luces) = orthoCoord c ∧
    (forwardDisp c (c.update dt luces) = 0 ∨
      forwardDisp c (c.update dt luces) = c.speed * dt) ∧
    (c.update dt luces).direction = c.direction ∧
    (c.update dt luces).speed = c.speed ∧
    (c.update dt luces).length = c.length ∧
    (c.update dt luces).width = c.width := by
  rcases c with ⟨dir, x, y, sp, len, w⟩
  cases dir
  case NORTE =>
    obtain ⟨h1, h2⟩ :=
      foldl_brake_cases ⟨Direction.NORTE, x, y, sp, len, w⟩ luces 0 (-sp * dt)
    simp only [Car.update, Car.intendedDisp, orthoCoord, forwardDisp] at h1 h2 ⊢
    refine ⟨?_, ?_, trivial, trivial, trivial, trivial⟩
    · rcases h1 with h | h <;> rw [h] <;> ring
    · rcases h2 with h | h
      · right; rw [h]; ring
      · left; rw [h]; ring
  case SUR =>
    obtain ⟨h1, h2⟩ :=
      foldl_brake_cases ⟨Direction.SUR, x, y, sp, len, w⟩ luces 0 (sp * dt)
    simp only [Car.update, Car.intendedDisp, orthoCoord, forwardDisp] at h1 h2 ⊢
    refine ⟨?_, ?_, trivial, trivial, trivial, trivial⟩
    · rcases h1 with h | h <;> rw [h] <;> ring
    · rcases h2 with h | h
      · right; rw [h]; ring
      · left; rw [h]; ring
  case ESTE =>
    obtain ⟨h1, h2⟩ :=
      foldl_brake_cases ⟨Direction.ESTE, x, y, sp, len, w⟩ luces (sp * dt) 0
    simp only [Car.update, Car.intendedDisp, orthoCoord, forwardDisp] at h1 h2 ⊢
    refine ⟨?_, ?_, trivial, trivial, trivial, trivial⟩
    · rcases h2 with h | h <;> rw [h] <;> ring
    · rcases h1 with h | h
      · right; rw [h]; ring
      · left; rw [h]; ring
  case OESTE =>
    obtain ⟨h1, h2⟩ :=
      foldl_brake_cases ⟨Direction.OESTE, x, y, sp, len, w⟩ luces (-sp * dt) 0
    simp only [Car.update, Car.intendedDisp, orthoCoord, forwardDisp] at h1 h2 ⊢
    refine ⟨?_, ?_, trivial, trivial, trivial, trivial⟩
    · rcases h2 with h | h <;> rw [h] <;> ring
    · rcases h1 with h | h
      · right; rw [h]; ring
      · left; rw [h]; ring

end TrafficSim
